import Mathlib

/-!
Verification development for the `confluo` microservice framework
(`src/confluo/models.py`, `src/confluo/helpers.py`, `src/confluo/core.py`).

The Python code is shallowly embedded: wire payloads are modelled at the
structured-record level (the value that `json.loads` returns), Python dicts
become association lists or point-wise maps, exceptions become `Except`,
and the asynchronous waiting step of `Service.call` is driven by an
explicit oracle describing how the wait ends.
-/

/-- A JSON value, the structured record produced by `json.loads` and
consumed by `json.dumps` in `models.py`. -/
inductive Json where
  | null : Json
  | bool (b : Bool) : Json
  | num (n : Int) : Json
  | str (s : String) : Json
  | arr (elems : List Json) : Json
  | obj (entries : List (String × Json)) : Json

/-- The single exception class of `errors.py` (`ServiceError`), which only
carries a message string. -/
structure ServiceError where
  msg : String
deriving DecidableEq

/-- `str` of a Python `KeyError` carrying the key `k`: the repr of the key,
i.e. the key wrapped in single quotes.  Used by
`ProtocolModel.verify_data`, `models.py` line 59. -/
def keyErrorStr (k : String) : String :=
  "'" ++ k ++ "'"

/-- The `ServiceError` raised by `ProtocolModel.verify_data` when the
required field `f` is missing (`models.py` line 59). -/
def missingFieldError (f : String) : ServiceError :=
  ⟨"Missing '" ++ keyErrorStr f ++ "' field in message."⟩

/-- Lookup in a Python dict modelled as an association list: the first
binding for the key, if any. -/
def dictGet (d : List (String × Json)) (k : String) : Option Json :=
  match d with
  | [] => none
  | (k₁, v) :: rest => if k₁ = k then some v else dictGet rest k

/-- `ProtocolModel` (`models.py` lines 20-72): a message is its `values`
dict, here the association list of its fields in insertion order. -/
structure ProtocolModel where
  values : List (String × Json)

/-- `ProtocolModel.verify_data` (`models.py` lines 45-61): extract the
required `fields` from the parsed payload in order, failing with a
`ServiceError` naming the first missing field. -/
def verify_data (fields : List String) (payload : List (String × Json)) :
    Except ServiceError (List (String × Json)) :=
  match fields with
  | [] => Except.ok []
  | f :: rest =>
    match dictGet payload f with
    | none => Except.error (missingFieldError f)
    | some v => (verify_data rest payload).map (fun l => (f, v) :: l)

/-- `ProtocolModel.loads` (`models.py` lines 28-43): parse (already done at
this level), verify the required fields, and build the model instance whose
`values` holds exactly the verified fields. -/
def ProtocolModel.loads (fields : List String) (payload : List (String × Json)) :
    Except ServiceError ProtocolModel :=
  (verify_data fields payload).map ProtocolModel.mk

/-- `ProtocolModel.__str__` (`models.py` lines 63-65): serializing a model
emits exactly its `values` dict as the structured payload record. -/
def ProtocolModel.dumps (m : ProtocolModel) : List (String × Json) :=
  m.values

/-- `ProtocolModel.__getattr__` (`models.py` lines 67-72): field access on
a model reads `values`.  Total here with `Json.null` for the impossible
missing case; every use in `core.py` is on a model built by `loads` or a
constructor, where the field is present. -/
def ProtocolModel.attr (m : ProtocolModel) (f : String) : Json :=
  (dictGet m.values f).getD Json.null

/-- `Command.FIELDS` (`models.py` line 83). -/
def Command.FIELDS : List String := ["path", "query", "body", "headers"]

/-- `Response.FIELDS` (`models.py` line 96). -/
def Response.FIELDS : List String := ["path", "body", "status_code", "headers"]

/-- `Event.FIELDS` (`models.py` line 109). -/
def Event.FIELDS : List String := ["path", "body", "headers"]

/-- `Command.__init__` (`models.py` lines 85-86): the `values` dict holds
the keyword arguments in the order they are passed to
`ProtocolModel.__init__`. -/
def mkCommand (path query body headers : Json) : ProtocolModel :=
  ⟨[("path", path), ("query", query), ("body", body), ("headers", headers)]⟩

/-- `Response.__init__` (`models.py` lines 98-99). -/
def mkResponse (path body status_code headers : Json) : ProtocolModel :=
  ⟨[("path", path), ("body", body), ("status_code", status_code), ("headers", headers)]⟩

/-- `Event.__init__` (`models.py` lines 111-112). -/
def mkEvent (path body headers : Json) : ProtocolModel :=
  ⟨[("path", path), ("body", body), ("headers", headers)]⟩

/-- `path_to_routing_key` (`helpers.py` lines 10-20): drop one leading
slash if present (`path.startswith("/")` then `path[1:]`), then replace
every remaining slash with a dot (`path.replace("/", ".")`, which for a
one-character pattern rewrites each occurrence character by character). -/
def path_to_routing_key (path : String) : String :=
  let cs := path.data
  let stripped := match cs with
    | '/' :: rest => rest
    | other => other
  String.mk (stripped.map (fun c => if c = '/' then '.' else c))

/-- The RPC exchange name, `Service.__init__` (`core.py` line 42). -/
def rpc_exchange_name : String := "rpc"

/-- The result a Python command handler may return, dispatched on by
`Service._on_command` (`core.py` lines 161-169): a `Response` instance, a
3-tuple `(body, status_code, headers)`, or a bare body value. -/
inductive HandlerResult where
  | response (r : ProtocolModel) : HandlerResult
  | triple (body status_code headers : Json) : HandlerResult
  | bare (body : Json) : HandlerResult

/-- A registered command handler: called with
`(command.path, command.query, command.headers, command.body)`
(`core.py` line 155). -/
def CommandHandler : Type :=
  Json → Json → Json → Json → HandlerResult

/-- A registered event handler: called with
`(event.path, event.headers, event.body)` (`core.py` line 238); its return
value is discarded. -/
def EventHandler : Type :=
  Json → Json → Json → Unit

/-- The two route tables of a `Service` (`core.py` lines 76-79), each a
Python dict from path strings to handlers, modelled point-wise. -/
structure RouteState where
  command_routes : String → Option CommandHandler
  event_routes : String → Option EventHandler

/-- The `ServiceError` raised by `Service.route` on a duplicate command
path (`core.py` line 304). -/
def duplicateCommandRouteError (path : String) : ServiceError :=
  ⟨"Command route with path '" ++ path ++ "' already registered."⟩

/-- The `ServiceError` raised by `Service.subscribe` on a duplicate event
path (`core.py` line 336). -/
def duplicateEventRouteError (path : String) : ServiceError :=
  ⟨"Event route with path '" ++ path ++ "' already registered."⟩

/-- The registration performed by the `Service.route` decorator
(`core.py` lines 301-306): raise before any mutation when `path` is
already bound, otherwise bind the handler.  The returned state is the
route tables after the call, also when the error is raised. -/
def route (st : RouteState) (path : String) (func : CommandHandler) :
    Except ServiceError Unit × RouteState :=
  match st.command_routes path with
  | some _ => (Except.error (duplicateCommandRouteError path), st)
  | none =>
    (Except.ok (),
     { st with command_routes := fun p => if p = path then some func else st.command_routes p })

/-- The registration performed by the `Service.subscribe` decorator
(`core.py` lines 333-338), same discipline over the event route table. -/
def subscribe (st : RouteState) (path : String) (func : EventHandler) :
    Except ServiceError Unit × RouteState :=
  match st.event_routes path with
  | some _ => (Except.error (duplicateEventRouteError path), st)
  | none =>
    (Except.ok (),
     { st with event_routes := fun p => if p = path then some func else st.event_routes p })

/-- AMQP message properties as read by the consumers (`properties.reply_to`,
`properties.correlation_id`). -/
structure MsgProps where
  reply_to : Option String
  correlation_id : Option String

/-- Python truthiness of an optional string (`if not properties.reply_to`,
`core.py` line 156): `None` and the empty string are falsy. -/
def strTruthy (o : Option String) : Bool :=
  match o with
  | none => false
  | some s => !s.isEmpty

/-- An outbound publish issued by `_on_command` for the handler's response
(`core.py` lines 172-178). -/
structure SentReply where
  exchange : String
  routing_key : String
  payload : ProtocolModel
  correlation_id : Option String

/-- The observable outcome of one `_on_command` delivery that did not
raise: which command path's handler (if any) was invoked, and the reply
(if any) that was published. -/
structure CommandOutcome where
  invoked : Option Json
  sent_reply : Option SentReply

/-- Dict lookup `self.command_routes[command.path]` (`core.py` line 148):
the table keys are path strings, so a non-string `path` value misses. -/
def routeLookup (routes : String → Option CommandHandler) (path : Json) :
    Option CommandHandler :=
  match path with
  | Json.str s => routes s
  | _ => none

/-- The normalization of a handler's return value performed inline by
`Service._on_command` (`core.py` lines 161-169): a `Response` instance is
used verbatim; a 3-tuple is unpacked into
`Response(command.path, body, status_code, headers)`; a bare value becomes
the body with `status_code = 200` and `headers = None`. -/
def normalizeResponse (command_path : Json) (res : HandlerResult) : ProtocolModel :=
  match res with
  | HandlerResult.response r => r
  | HandlerResult.triple body status_code headers =>
      mkResponse command_path body status_code headers
  | HandlerResult.bare body =>
      mkResponse command_path body (Json.num 200) Json.null

/-- `Service._on_command` (`core.py` lines 132-184).  `Command.loads` is
outside the `try` block, so a decode failure propagates out of the
consumer callback; a route miss is caught, logged and dropped; with a
falsy `reply_to` no reply is sent; otherwise the normalized response is
published to the RPC exchange at `properties.reply_to`, carrying
`properties.correlation_id`. -/
def on_command (routes : String → Option CommandHandler)
    (payload : List (String × Json)) (props : MsgProps) :
    Except ServiceError CommandOutcome :=
  match ProtocolModel.loads Command.FIELDS payload with
  | Except.error e => Except.error e
  | Except.ok command =>
    match routeLookup routes (command.attr "path") with
    | none => Except.ok ⟨none, none⟩
    | some func =>
      let res := func (command.attr "path") (command.attr "query")
        (command.attr "headers") (command.attr "body")
      if strTruthy props.reply_to then
        Except.ok ⟨some (command.attr "path"),
          some ⟨rpc_exchange_name, props.reply_to.getD "",
            normalizeResponse (command.attr "path") res, props.correlation_id⟩⟩
      else
        Except.ok ⟨some (command.attr "path"), none⟩

/-- A `CommandTransaction` (`models.py` lines 115-127): the stored
response; the wakeup event itself is modelled by the wait oracle below. -/
structure CommandTransaction where
  response : Option ProtocolModel

/-- `Service.command_transactions` (`core.py` line 82), a Python dict
modelled point-wise: correlation id to pending transaction. -/
def CorrelationTable : Type :=
  String → Option CommandTransaction

/-- Python dict assignment `d[k] = v`. -/
def tableSet (t : CorrelationTable) (k : String) (v : CommandTransaction) :
    CorrelationTable :=
  fun k₁ => if k₁ = k then some v else t k₁

/-- Python dict deletion `del d[k]`. -/
def tableDel (t : CorrelationTable) (k : String) : CorrelationTable :=
  fun k₁ => if k₁ = k then none else t k₁

/-- How the waiting step of `Service.call` ends
(`await asyncio.wait_for(transaction.event.wait(), timeout)`,
`core.py` line 284): the transaction's event fires (carrying whatever
`transaction.response` holds at that moment), the timeout elapses first
(`asyncio.TimeoutError`), or some other exception interrupts the wait. -/
inductive WaitOutcome where
  | signaled (response : Option ProtocolModel) : WaitOutcome
  | timedOut : WaitOutcome
  | otherFailure : WaitOutcome

/-- How `Service.call` returns control to its caller: a normal return
(`None` when no response is expected) or a raised exception. -/
inductive CallResult where
  | returned (r : Option ProtocolModel) : CallResult
  | raisedTimeout : CallResult
  | raisedOther : CallResult

/-- One externally visible step of `Service.call`, in execution order:
registering the transaction in the Correlation Table, publishing the
Command to the RPC exchange, and entering the wait. -/
inductive CallAction where
  | register (correlation_id : String) : CallAction
  | publish (exchange : String) (routing_key : String)
      (payload : ProtocolModel) (props : MsgProps) : CallAction
  | waitFor (correlation_id : String) : CallAction

/-- `Service.call` (`core.py` lines 240-292).  `message_id` stands for the
fresh `str(uuid.uuid4())`; `response_queue_name` for
`self.response_queue_name`; `wait` for how the waiting step ends.  Mirrors
the source order: build the Command; if a response is expected, set the
properties and register the transaction; publish; if no response is
expected, return `None` at once; otherwise wait, re-raising a timeout and
propagating any other failure, returning `transaction.response` on a
signal, and in every one of those paths delete the transaction in the
`finally` block.  Returns the call's result, the final Correlation Table,
and the ordered action trace. -/
def call (table : CorrelationTable) (response_queue_name : String)
    (service_name path : String) (body query headers : Json)
    (message_id : String) (expect_response : Bool) (wait : WaitOutcome) :
    CallResult × CorrelationTable × List CallAction :=
  let command := mkCommand (Json.str path) query body headers
  let props : MsgProps :=
    if expect_response then ⟨some response_queue_name, some message_id⟩
    else ⟨none, none⟩
  let table₁ := if expect_response then tableSet table message_id ⟨none⟩ else table
  let preActions : List CallAction :=
    if expect_response then [CallAction.register message_id] else []
  let actions := preActions ++
    [CallAction.publish rpc_exchange_name service_name command props]
  if expect_response then
    let final := tableDel table₁ message_id
    match wait with
    | WaitOutcome.timedOut =>
        (CallResult.raisedTimeout, final, actions ++ [CallAction.waitFor message_id])
    | WaitOutcome.otherFailure =>
        (CallResult.raisedOther, final, actions ++ [CallAction.waitFor message_id])
    | WaitOutcome.signaled r =>
        (CallResult.returned r, final, actions ++ [CallAction.waitFor message_id])
  else
    (CallResult.returned none, table₁, actions)

/-- The three broker connections a `Service` owns, one per channel
(`core.py` lines 56-73). -/
inductive Resource where
  | command : Resource
  | response : Resource
  | event : Resource
deriving DecidableEq

/-- The order in which `Service.connect` acquires the three
transport/protocol/channel triples (`core.py` lines 94-124): command
first, then response, then event. -/
def acquisitionOrder : List Resource :=
  [Resource.command, Resource.response, Resource.event]

/-- The order in which `Service.shutdown` closes the protocols and
transports (`core.py` lines 366-377): command first, then response, then
event. -/
def shutdownOrder : List Resource :=
  [Resource.command, Resource.response, Resource.event]

/-- Sequentially close resources in the given order, with no exception
isolation between steps, exactly as `Service.shutdown` awaits each close
in turn: a step whose close raises stops the sequence, leaving the
remaining resources unreleased.  Returns the resources actually closed
and the resource whose close raised, if any. -/
def closeAll (order : List Resource) (fails : Resource → Bool) :
    List Resource × Option Resource :=
  match order with
  | [] => ([], none)
  | r :: rest =>
    if fails r then ([], some r)
    else
      let (closed, err) := closeAll rest fails
      (r :: closed, err)

/-- `Service.shutdown` (`core.py` lines 360-378), parameterized by which
closes fail. -/
def shutdown (fails : Resource → Bool) : List Resource × Option Resource :=
  closeAll shutdownOrder fails

/-- The keys of a successfully verified payload are exactly the requested
fields, in order. -/
theorem verify_data_keys (fields : List String) (payload : List (String × Json))
    (l : List (String × Json)) (h : verify_data fields payload = Except.ok l) :
    l.map Prod.fst = fields := by
  induction fields generalizing l with
  | nil =>
    simp only [verify_data, Except.ok.injEq] at h
    subst h
    rfl
  | cons f rest ih =>
    simp only [verify_data] at h
    cases hd : dictGet payload f with
    | none => rw [hd] at h; exact absurd h (by simp)
    | some v =>
      rw [hd] at h
      cases hv : verify_data rest payload with
      | error e => rw [hv] at h; exact absurd h (by simp [Except.map])
      | ok l₂ =>
        rw [hv] at h
        simp only [Except.map, Except.ok.injEq] at h
        subst h
        simp [ih l₂ hv]

/-- C8: `path_to_routing_key` is a total function on strings: it strips a
single leading slash if present and turns every remaining slash into a
dot, mapping "/a/b/c" to "a.b.c" and "a/b" to "a.b"; in particular only
one leading separator is stripped and no slash survives in the output. -/
theorem path_to_routing_key_spec :
    path_to_routing_key "/a/b/c" = "a.b.c"
    ∧ path_to_routing_key "a/b" = "a.b"
    ∧ path_to_routing_key "//a" = ".a"
    ∧ ∀ s : String, '/' ∉ (path_to_routing_key s).data := by
  refine ⟨by decide, by decide, by decide, ?_⟩
  intro s hmem
  simp only [path_to_routing_key, List.mem_map] at hmem
  obtain ⟨c, _, hc⟩ := hmem
  by_cases h : c = '/'
  · simp [h] at hc
  · simp [if_neg h] at hc
    exact h hc

/-- Witness for C8: at the concrete input "/a/b/c" the translation yields
"a.b.c" and the resulting key holds no slash. -/
theorem path_to_routing_key_spec_witness :
    path_to_routing_key "/a/b/c" = "a.b.c"
    ∧ '/' ∉ (path_to_routing_key "/a/b/c").data :=
  ⟨path_to_routing_key_spec.1, path_to_routing_key_spec.2.2.2 "/a/b/c"⟩

/-- C3: decoding the encoding of a message round-trips for each of the
three message kinds: every Command, Response and Event built by its
constructor is recovered unchanged by `loads` applied to its serialized
`values`. -/
theorem loads_dumps_roundtrip :
    (∀ path query body headers : Json,
        ProtocolModel.loads Command.FIELDS
            (ProtocolModel.dumps (mkCommand path query body headers))
          = Except.ok (mkCommand path query body headers))
    ∧ (∀ path body status_code headers : Json,
        ProtocolModel.loads Response.FIELDS
            (ProtocolModel.dumps (mkResponse path body status_code headers))
          = Except.ok (mkResponse path body status_code headers))
    ∧ (∀ path body headers : Json,
        ProtocolModel.loads Event.FIELDS
            (ProtocolModel.dumps (mkEvent path body headers))
          = Except.ok (mkEvent path body headers)) := by
  refine ⟨?_, ?_, ?_⟩ <;> intros <;> rfl

/-- C10: decoding projects onto exactly the kind's required fields: when
`loads` succeeds on a payload (extra fields allowed), the decoded model
holds exactly the required fields, so re-encoding it yields a payload
whose key list is exactly the required field list. -/
theorem loads_projects_required_fields (fields : List String)
    (payload : List (String × Json)) (m : ProtocolModel)
    (h : ProtocolModel.loads fields payload = Except.ok m) :
    (ProtocolModel.dumps m).map Prod.fst = fields := by
  simp only [ProtocolModel.loads] at h
  cases hv : verify_data fields payload with
  | error e => rw [hv] at h; exact absurd h (by simp [Except.map])
  | ok l =>
    rw [hv] at h
    simp only [Except.map, Except.ok.injEq] at h
    subst h
    exact verify_data_keys fields payload l hv

/-- Witness for C10: a concrete Command payload with an extra field
decodes to the model holding exactly the four required fields, and its
re-encoding has exactly the required keys. -/
theorem loads_projects_required_fields_witness :
    ProtocolModel.loads Command.FIELDS
        [("extra", Json.bool true), ("path", Json.str "/x"), ("query", Json.null),
         ("body", Json.null), ("headers", Json.null)]
      = Except.ok ⟨[("path", Json.str "/x"), ("query", Json.null),
          ("body", Json.null), ("headers", Json.null)]⟩
    ∧ (ProtocolModel.dumps ⟨[("path", Json.str "/x"), ("query", Json.null),
          ("body", Json.null), ("headers", Json.null)]⟩).map Prod.fst
      = Command.FIELDS :=
  ⟨rfl,
   loads_projects_required_fields Command.FIELDS
     [("extra", Json.bool true), ("path", Json.str "/x"), ("query", Json.null),
      ("body", Json.null), ("headers", Json.null)]
     ⟨[("path", Json.str "/x"), ("query", Json.null),
       ("body", Json.null), ("headers", Json.null)]⟩ rfl⟩

/-- C6: the dispatcher uses a Response returned by the handler verbatim,
wraps a 3-tuple into `Response(path, body, status_code, headers)`, wraps a
bare value with status code 200 and null headers, the wrapped Response
path echoing the inbound Command path; and on a delivery that decodes and
routes successfully with a truthy reply address, `_on_command` publishes
exactly that normalized Response to the RPC exchange. -/
theorem on_command_response_normalization :
    (∀ (p : Json) (r : ProtocolModel),
        normalizeResponse p (HandlerResult.response r) = r)
    ∧ (∀ p body status_code headers : Json,
        normalizeResponse p (HandlerResult.triple body status_code headers)
            = mkResponse p body status_code headers
          ∧ (normalizeResponse p (HandlerResult.triple body status_code headers)).attr "path"
            = p)
    ∧ (∀ p body : Json,
        normalizeResponse p (HandlerResult.bare body)
            = mkResponse p body (Json.num 200) Json.null
          ∧ (normalizeResponse p (HandlerResult.bare body)).attr "path" = p)
    ∧ (∀ (routes : String → Option CommandHandler) (payload : List (String × Json))
          (props : MsgProps) (cmd : ProtocolModel) (func : CommandHandler),
        ProtocolModel.loads Command.FIELDS payload = Except.ok cmd →
        routeLookup routes (cmd.attr "path") = some func →
        strTruthy props.reply_to = true →
        on_command routes payload props
          = Except.ok ⟨some (cmd.attr "path"),
              some ⟨rpc_exchange_name, props.reply_to.getD "",
                normalizeResponse (cmd.attr "path")
                  (func (cmd.attr "path") (cmd.attr "query")
                    (cmd.attr "headers") (cmd.attr "body")),
                props.correlation_id⟩⟩) := by
  refine ⟨fun p r => rfl, fun p b s h => ⟨rfl, rfl⟩, fun p b => ⟨rfl, rfl⟩, ?_⟩
  intro routes payload props cmd func hload hroute htruthy
  simp only [on_command, hload, hroute, htruthy, if_pos]

/-- Witness for C6: a concrete delivery whose handler returns a bare
value is answered with the default-wrapped Response on the reply routing
key. -/
theorem on_command_response_normalization_witness :
    on_command
        (fun p => if p = "/x" then some (fun _ _ _ _ => HandlerResult.bare (Json.str "ok"))
                  else none)
        [("path", Json.str "/x"), ("query", Json.null),
         ("body", Json.null), ("headers", Json.null)]
        ⟨some "replyq", some "cid-1"⟩
      = Except.ok ⟨some (Json.str "/x"),
          some ⟨rpc_exchange_name, "replyq",
            mkResponse (Json.str "/x") (Json.str "ok") (Json.num 200) Json.null,
            some "cid-1"⟩⟩ :=
  on_command_response_normalization.2.2.2
    (fun p => if p = "/x" then some (fun _ _ _ _ => HandlerResult.bare (Json.str "ok"))
              else none)
    [("path", Json.str "/x"), ("query", Json.null),
     ("body", Json.null), ("headers", Json.null)]
    ⟨some "replyq", some "cid-1"⟩
    ⟨[("path", Json.str "/x"), ("query", Json.null),
      ("body", Json.null), ("headers", Json.null)]⟩
    (fun _ _ _ _ => HandlerResult.bare (Json.str "ok"))
    rfl rfl rfl

/-- C5 (amended): a delivery whose payload fails to decode makes
`_on_command` raise that decode error out of the consumer callback
(`Command.loads` sits outside the `try` block, so nothing is logged and
the error is not swallowed); consequently no handler is invoked and no
reply is sent. -/
theorem on_command_decode_failure_propagates
    (routes : String → Option CommandHandler)
    (payload : List (String × Json)) (props : MsgProps) (e : ServiceError)
    (h : ProtocolModel.loads Command.FIELDS payload = Except.error e) :
    on_command routes payload props = Except.error e := by
  simp only [on_command, h]

/-- Witness for C5 (amended): a concrete payload missing the `path` field
makes `_on_command` raise the `ServiceError` naming that field. -/
theorem on_command_decode_failure_propagates_witness :
    ProtocolModel.loads Command.FIELDS
        [("query", Json.null), ("body", Json.null), ("headers", Json.null)]
      = Except.error (missingFieldError "path")
    ∧ on_command (fun _ => none)
        [("query", Json.null), ("body", Json.null), ("headers", Json.null)]
        ⟨none, none⟩
      = Except.error (missingFieldError "path") :=
  ⟨rfl,
   on_command_decode_failure_propagates (fun _ => none)
     [("query", Json.null), ("body", Json.null), ("headers", Json.null)]
     ⟨none, none⟩ (missingFieldError "path") rfl⟩

/-- Counterexample for C5 as stated: on a concrete delivery whose payload
is missing the required `path` field, `_on_command` does not treat the
delivery as handled — there is no outcome it returns, because the decode
error propagates out of the consumer callback. -/
theorem on_command_decode_failure_not_handled :
    ¬ ∃ o : CommandOutcome,
        on_command (fun _ => none)
            [("query", Json.null), ("body", Json.null), ("headers", Json.null)]
            ⟨none, none⟩
          = Except.ok o := by
  rintro ⟨o, ho⟩
  have hrun : on_command (fun _ => none)
      [("query", Json.null), ("body", Json.null), ("headers", Json.null)]
      ⟨none, none⟩
    = Except.error (missingFieldError "path") := rfl
  rw [hrun] at ho
  exact Except.noConfusion ho

/-- C1: a call expecting a response that times out raises the timeout to
its caller, and whichever way the waiting step ends — response signaled,
timeout, or any other failure — the Correlation Table afterwards no
longer contains the call's correlation id (the `finally` block always
deletes the transaction). -/
theorem call_timeout_cleanup :
    ∀ (table : CorrelationTable) (rq sn p : String) (body query headers : Json)
      (id : String),
      (call table rq sn p body query headers id true WaitOutcome.timedOut).1
          = CallResult.raisedTimeout
        ∧ ∀ w : WaitOutcome,
            (call table rq sn p body query headers id true w).2.1 id = none := by
  intro table rq sn p body query headers id
  refine ⟨rfl, ?_⟩
  intro w
  cases w <;> simp [call, tableDel]

/-- C2: with `expect_response = true` the transaction is registered in the
Correlation Table strictly before the Command is published (the action
trace is register, then publish, then wait); with
`expect_response = false` no transaction is ever registered, the table is
untouched, and the call returns `None` immediately with no waiting step,
whatever the wait oracle would have said. -/
theorem call_register_before_publish :
    ∀ (table : CorrelationTable) (rq sn p : String) (body query headers : Json)
      (id : String) (w : WaitOutcome),
      (call table rq sn p body query headers id true w).2.2
          = [CallAction.register id,
             CallAction.publish rpc_exchange_name sn
               (mkCommand (Json.str p) query body headers) ⟨some rq, some id⟩,
             CallAction.waitFor id]
        ∧ call table rq sn p body query headers id false w
          = (CallResult.returned none, table,
             [CallAction.publish rpc_exchange_name sn
               (mkCommand (Json.str p) query body headers) ⟨none, none⟩]) := by
  intro table rq sn p body query headers id w
  exact ⟨by cases w <;> rfl, rfl⟩

/-- C4: registering a command handler on an already-bound path fails with
the duplicate-route `ServiceError`; a first registration on a free path
succeeds; the same discipline holds for event routes; and the two tables
are independent namespaces — command registration never touches the event
table and vice versa. -/
theorem route_duplicate_discipline :
    (∀ (st : RouteState) (p : String) (f : CommandHandler),
        st.command_routes p = none → (route st p f).1 = Except.ok ())
    ∧ (∀ (st : RouteState) (p : String) (f g : CommandHandler),
        st.command_routes p = some g →
          (route st p f).1 = Except.error (duplicateCommandRouteError p))
    ∧ (∀ (st : RouteState) (p : String) (f : EventHandler),
        st.event_routes p = none → (subscribe st p f).1 = Except.ok ())
    ∧ (∀ (st : RouteState) (p : String) (f g : EventHandler),
        st.event_routes p = some g →
          (subscribe st p f).1 = Except.error (duplicateEventRouteError p))
    ∧ (∀ (st : RouteState) (p : String) (f : CommandHandler),
        (route st p f).2.event_routes = st.event_routes)
    ∧ (∀ (st : RouteState) (p : String) (f : EventHandler),
        (subscribe st p f).2.command_routes = st.command_routes) := by
  refine ⟨?_, ?_, ?_, ?_, ?_, ?_⟩
  · intro st p f h; simp [route, h]
  · intro st p f g h; simp [route, h]
  · intro st p f h; simp [subscribe, h]
  · intro st p f g h; simp [subscribe, h]
  · intro st p f; cases h : st.command_routes p <;> simp [route, h]
  · intro st p f; cases h : st.event_routes p <;> simp [subscribe, h]

/-- Witness for C4: on an empty service a first command registration and a
first event registration succeed, and repeating either path fails with
the corresponding duplicate-route error. -/
theorem route_duplicate_discipline_witness :
    (route ⟨fun _ => none, fun _ => none⟩ "/p"
        (fun _ _ _ _ => HandlerResult.bare Json.null)).1 = Except.ok ()
    ∧ (route ⟨fun s => if s = "/p" then some (fun _ _ _ _ => HandlerResult.bare Json.null)
                       else none,
              fun _ => none⟩ "/p"
        (fun _ _ _ _ => HandlerResult.bare Json.null)).1
      = Except.error (duplicateCommandRouteError "/p")
    ∧ (subscribe ⟨fun _ => none, fun _ => none⟩ "/p" (fun _ _ _ => ())).1 = Except.ok ()
    ∧ (subscribe ⟨fun _ => none,
                  fun s => if s = "/p" then some (fun _ _ _ => ()) else none⟩ "/p"
        (fun _ _ _ => ())).1
      = Except.error (duplicateEventRouteError "/p") :=
  ⟨route_duplicate_discipline.1 ⟨fun _ => none, fun _ => none⟩ "/p"
     (fun _ _ _ _ => HandlerResult.bare Json.null) rfl,
   route_duplicate_discipline.2.1
     ⟨fun s => if s = "/p" then some (fun _ _ _ _ => HandlerResult.bare Json.null)
               else none, fun _ => none⟩ "/p"
     (fun _ _ _ _ => HandlerResult.bare Json.null)
     (fun _ _ _ _ => HandlerResult.bare Json.null) rfl,
   route_duplicate_discipline.2.2.1 ⟨fun _ => none, fun _ => none⟩ "/p"
     (fun _ _ _ => ()) rfl,
   route_duplicate_discipline.2.2.2.1
     ⟨fun _ => none,
      fun s => if s = "/p" then some (fun _ _ _ => ()) else none⟩ "/p"
     (fun _ _ _ => ()) (fun _ _ _ => ()) rfl⟩

/-- C9: a duplicate registration is atomic — the duplicate-route error is
raised before any mutation, so the route table is returned completely
unchanged and the originally registered handler stays bound to the path;
likewise for event routes. -/
theorem route_duplicate_atomic :
    (∀ (st : RouteState) (p : String) (f g : CommandHandler),
        st.command_routes p = some g →
          route st p f = (Except.error (duplicateCommandRouteError p), st)
            ∧ (route st p f).2.command_routes p = some g)
    ∧ (∀ (st : RouteState) (p : String) (f g : EventHandler),
        st.event_routes p = some g →
          subscribe st p f = (Except.error (duplicateEventRouteError p), st)
            ∧ (subscribe st p f).2.event_routes p = some g) := by
  constructor
  · intro st p f g h
    constructor
    · simp [route, h]
    · simp [route, h]
  · intro st p f g h
    constructor
    · simp [subscribe, h]
    · simp [subscribe, h]

/-- Witness for C9: a concrete duplicate command registration returns the
duplicate-route error together with the route tables exactly as they
were, the original handler still bound. -/
theorem route_duplicate_atomic_witness :
    route ⟨fun s => if s = "/q" then some (fun _ _ _ _ => HandlerResult.bare (Json.str "one"))
                    else none,
           fun _ => none⟩ "/q"
        (fun _ _ _ _ => HandlerResult.bare (Json.str "two"))
      = (Except.error (duplicateCommandRouteError "/q"),
         ⟨fun s => if s = "/q" then some (fun _ _ _ _ => HandlerResult.bare (Json.str "one"))
                   else none,
          fun _ => none⟩)
    ∧ (route ⟨fun s => if s = "/q" then some (fun _ _ _ _ => HandlerResult.bare (Json.str "one"))
                       else none,
              fun _ => none⟩ "/q"
        (fun _ _ _ _ => HandlerResult.bare (Json.str "two"))).2.command_routes "/q"
      = some (fun _ _ _ _ => HandlerResult.bare (Json.str "one")) :=
  route_duplicate_atomic.1
    ⟨fun s => if s = "/q" then some (fun _ _ _ _ => HandlerResult.bare (Json.str "one"))
              else none, fun _ => none⟩ "/q"
    (fun _ _ _ _ => HandlerResult.bare (Json.str "two"))
    (fun _ _ _ _ => HandlerResult.bare (Json.str "one")) rfl

/-- The resources actually closed by a sequential close pass are the
longest prefix of the order on which no close fails. -/
theorem closeAll_closed_takeWhile (order : List Resource) (fails : Resource → Bool) :
    (closeAll order fails).1 = order.takeWhile (fun r => !(fails r)) := by
  induction order with
  | nil => rfl
  | cons r rest ih =>
    simp only [closeAll, List.takeWhile]
    cases h : fails r <;> simp [h, ih]

/-- Counterexample for C7 as stated: the shutdown order is not the
reverse of the acquisition order, and a failure while closing the command
connection prevents the release of the response and event connections
even though their closes would not fail. -/
theorem shutdown_not_reverse_not_independent :
    shutdownOrder ≠ acquisitionOrder.reverse
    ∧ shutdown (fun r => match r with | Resource.command => true | _ => false)
      = ([], some Resource.command)
    ∧ (fun r => match r with | Resource.command => true | _ => false) Resource.response
      = false := by
  refine ⟨by decide, rfl, rfl⟩

/-- C7 (amended): `shutdown()` releases the three connections in the same
order `connect()` acquired them — command, then response, then event —
and the close steps run sequentially with no exception isolation, so the
resources released are exactly the prefix before the first failing close;
when nothing fails, everything is released. -/
theorem shutdown_same_order_sequential :
    shutdownOrder = acquisitionOrder
    ∧ (∀ fails : Resource → Bool,
        (shutdown fails).1 = shutdownOrder.takeWhile (fun r => !(fails r)))
    ∧ (shutdown (fun _ => false)).1 = acquisitionOrder :=
  ⟨rfl, fun fails => closeAll_closed_takeWhile shutdownOrder fails, rfl⟩
